import Mathlib

/-!
Verification of the `ShipInput` input controller of the Ship Demo
(`src/ShipDemo/source/SDInput.h`).

The repository fragment contains only the class header. The inline members
found in the header are embedded directly from the source:

* `~ShipInput() { dispose(); }`                     — `ShipInput.destructor`
* `bool isActive() const { return _active; }`       — `ShipInput.isActive`
* `const cugl::Vec2& getThrust() { return _inputThrust; }` — `ShipInput.getThrust`
* `bool didReset() const { return _resetPressed; }` — `ShipInput.didReset`

The bodies of `init`, `dispose`, `update`, `clear`, `touchBeganCB` and
`touchEndedCB` are declared in the header but their compilation unit
(`SDInput.cpp`) is not part of the fragment; those are modelled from the
specification, as marked on each definition.

Scalars (the CUGL `float` forces, coordinates and timestamps) are modelled
as rationals, and the engine environment (which keys are down, whether
listener registration succeeds, the positions and timestamps carried by
touch events) is passed explicitly as arguments.
-/

namespace ShipDemo

/-- A two-dimensional vector, modelling `cugl::Vec2`. -/
structure Vec2 where
  x : ℚ
  y : ℚ
deriving DecidableEq, Repr

/-- The zero vector. -/
def Vec2.zero : Vec2 := ⟨0, 0⟩

instance : Add Vec2 := ⟨fun a b => ⟨a.x + b.x, a.y + b.y⟩⟩

instance : Sub Vec2 := ⟨fun a b => ⟨a.x - b.x, a.y - b.y⟩⟩

/-- Scalar multiplication on `Vec2`. -/
def Vec2.smul (k : ℚ) (v : Vec2) : Vec2 := ⟨k * v.x, k * v.y⟩

theorem Vec2.add_def (a b : Vec2) : a + b = ⟨a.x + b.x, a.y + b.y⟩ := rfl

theorem Vec2.sub_def (a b : Vec2) : a - b = ⟨a.x - b.x, a.y - b.y⟩ := rfl

/-- The engine-side keyboard snapshot polled by `update`: whether each of
the four arrow keys and the reset key is currently down. -/
structure Keys where
  left : Bool
  right : Bool
  up : Bool
  down : Bool
  reset : Bool
deriving DecidableEq, Repr

/-- The configured force magnitudes for the four directional keys and the
proportionality factor applied to touch-gesture deltas.  The spec calls
these "the configured force magnitudes" (§3 Invariants) and specifies the
touch contribution as "proportional to (Q−P)" (§8). -/
structure InputConfig where
  fLeft : ℚ
  fRight : ℚ
  fUp : ℚ
  fDown : ℚ
  touchFactor : ℚ
deriving DecidableEq, Repr

/-- The state of the `ShipInput` controller: the fields of the C++ class
(`_active`, `_keyReset`, `_forceLeft`, `_forceRight`, `_forceUp`,
`_forceDown`, `_keybdThrust`, `_dtouch`, `_timestamp`, `_resetPressed`,
`_inputThrust`), plus `touchAccum`, the touch-gesture delta "accumulated
since the last call" to `update` that the spec (§4.1) says `update` merges
into the final input-thrust output; the header fragment does not name the
member backing that accumulation, so it appears here as its own field. -/
structure ShipInput where
  active : Bool
  keyReset : Bool
  forceLeft : ℚ
  forceRight : ℚ
  forceUp : ℚ
  forceDown : ℚ
  keybdThrust : Vec2
  dtouch : Vec2
  timestamp : ℚ
  touchAccum : Vec2
  resetPressed : Bool
  inputThrust : Vec2
deriving DecidableEq, Repr

/-- The state of a freshly constructed controller: the constructor
"does NOT do any initialzation" beyond allocation, so every flag is off
and every scalar cleared. -/
def ShipInput.initial : ShipInput :=
  { active := false
    keyReset := false
    forceLeft := 0
    forceRight := 0
    forceUp := 0
    forceDown := 0
    keybdThrust := Vec2.zero
    dtouch := Vec2.zero
    timestamp := 0
    touchAccum := Vec2.zero
    resetPressed := false
    inputThrust := Vec2.zero }

/-- Inline in the header: `bool isActive() const { return _active; }`. -/
def ShipInput.isActive (s : ShipInput) : Bool := s.active

/-- Inline in the header: `const cugl::Vec2& getThrust() { return _inputThrust; }`. -/
def ShipInput.getThrust (s : ShipInput) : Vec2 := s.inputThrust

/-- Inline in the header: `bool didReset() const { return _resetPressed; }`. -/
def ShipInput.didReset (s : ShipInput) : Bool := s.resetPressed

/-- Modelled from the spec: the body of `ShipInput::dispose` is in the
missing `SDInput.cpp`.  Per the spec (§4.1) it "unregisters callbacks,
clears all cached state, sets inactive. Safe to call multiple times";
clearing every cached field and dropping the active flag leaves exactly
the freshly constructed state. -/
def ShipInput.dispose (_s : ShipInput) : ShipInput := ShipInput.initial

/-- Modelled from the spec: the body of `ShipInput::init` is in the missing
`SDInput.cpp`.  Per the spec (§4.1) it registers the listeners and resets
state, returns false when registration fails, and is guarded by the active
flag ("re-initializing an already-active controller is a no-op or error").
The engine-side success of listener registration is the `registered`
argument. -/
def ShipInput.init (s : ShipInput) (registered : Bool) : Bool × ShipInput :=
  if s.active then (false, s)
  else if registered then (true, { ShipInput.initial with active := true })
  else (false, s)

/-- Modelled from the spec: the body of `ShipInput::update` is in the
missing `SDInput.cpp`.  Per the spec (§4.1) it polls the current key
states, recomputes the four directional force scalars, combines them into
the keyboard-thrust vector, merges the touch-gesture delta accumulated
since the last call into the final input-thrust output, and latches
`resetPressed` if the reset key is currently down; per §8 it is a no-op
after `dispose()`. -/
def ShipInput.update (s : ShipInput) (cfg : InputConfig) (keys : Keys)
    (_dt : ℚ) : ShipInput :=
  if s.active then
    let fl := if keys.left then cfg.fLeft else 0
    let fr := if keys.right then cfg.fRight else 0
    let fu := if keys.up then cfg.fUp else 0
    let fd := if keys.down then cfg.fDown else 0
    let kb : Vec2 := ⟨fr - fl, fu - fd⟩
    { s with
      keyReset := keys.reset
      forceLeft := fl
      forceRight := fr
      forceUp := fu
      forceDown := fd
      keybdThrust := kb
      touchAccum := Vec2.zero
      resetPressed := s.resetPressed || keys.reset
      inputThrust := kb + s.touchAccum }
  else s

/-- Modelled from the spec: the body of `ShipInput::clear` is in the
missing `SDInput.cpp`.  Per the spec (§4.1) it "resets transient results
(reset flag, thrust) without deactivating". -/
def ShipInput.clear (s : ShipInput) : ShipInput :=
  { s with resetPressed := false, inputThrust := Vec2.zero }

/-- Modelled from the spec: the body of `ShipInput::touchBeganCB` is in
the missing `SDInput.cpp`.  Per the spec (§4.1) it "records the touch
start position and timestamp".  The listener is registered only while the
controller is active, so an inactive controller never observes the event. -/
def ShipInput.touchBeganCB (s : ShipInput) (pos : Vec2) (time : ℚ) : ShipInput :=
  if s.active then { s with dtouch := pos, timestamp := time } else s

/-- Modelled from the spec: the body of `ShipInput::touchEndedCB` is in
the missing `SDInput.cpp`.  Per the spec (§4.1) it "computes the final
delta between end and start position ..., folding it into the
thrust/gesture result, then clears the pending-touch state"; per §8 the
contribution is proportional to that delta, and per §9 repeated gestures
within one frame add their deltas. -/
def ShipInput.touchEndedCB (s : ShipInput) (cfg : InputConfig) (pos : Vec2) : ShipInput :=
  if s.active then
    { s with
      touchAccum := s.touchAccum + Vec2.smul cfg.touchFactor (pos - s.dtouch)
      dtouch := Vec2.zero
      timestamp := 0 }
  else s

/-- Inline in the header: `~ShipInput() { dispose(); }` — the destructor calls
`dispose`. -/
def ShipInput.destructor (s : ShipInput) : ShipInput := s.dispose

/-- One externally triggerable operation on the controller, together with
the engine-side data it carries. -/
inductive Op where
  | opInit (registered : Bool)
  | opDispose
  | opUpdate (keys : Keys) (dt : ℚ)
  | opClear
  | opTouchBegan (pos : Vec2) (time : ℚ)
  | opTouchEnded (pos : Vec2)
deriving Repr

/-- Apply one operation to a controller state. -/
def applyOp (cfg : InputConfig) (s : ShipInput) : Op → ShipInput
  | .opInit r => (s.init r).2
  | .opDispose => s.dispose
  | .opUpdate keys dt => s.update cfg keys dt
  | .opClear => s.clear
  | .opTouchBegan p t => s.touchBeganCB p t
  | .opTouchEnded p => s.touchEndedCB cfg p

/-- Run a sequence of operations from the freshly constructed state: the
states `run cfg ops` are exactly the reachable controller states. -/
def run (cfg : InputConfig) (ops : List Op) : ShipInput :=
  ops.foldl (applyOp cfg) ShipInput.initial


/-- Boundedness of the keyboard-thrust components by the configured
directional force magnitudes: the horizontal component lies between the
negated left magnitude and the right magnitude, the vertical component
between the negated down magnitude and the up magnitude. -/
def KbBounded (cfg : InputConfig) (s : ShipInput) : Prop :=
  -cfg.fLeft ≤ s.keybdThrust.x ∧ s.keybdThrust.x ≤ cfg.fRight ∧
    -cfg.fDown ≤ s.keybdThrust.y ∧ s.keybdThrust.y ≤ cfg.fUp


/-- C1: if `init()` returns true then `isActive()` returns true immediately
afterwards, and after any call to `dispose()` `isActive()` returns false. -/
theorem c1_init_success_active_dispose_inactive (s t : ShipInput) (registered : Bool)
    (h : (s.init registered).1 = true) :
    (s.init registered).2.isActive = true ∧ t.dispose.isActive = false := by
  refine ⟨?_, rfl⟩
  cases hA : s.active
  · cases hR : registered
    · simp [ShipInput.init, hA, hR] at h
    · simp [ShipInput.init, hA, hR, ShipInput.isActive]
  · simp [ShipInput.init, hA] at h

/-- Witness for C1 at the freshly constructed controller with successful
registration. -/
theorem c1_witness :
    (ShipInput.initial.init true).1 = true ∧
      ((ShipInput.initial.init true).2.isActive = true ∧
        ShipInput.initial.dispose.isActive = false) :=
  ⟨rfl, c1_init_success_active_dispose_inactive ShipInput.initial ShipInput.initial true rfl⟩

/-- C4: `clear()` makes `didReset()` return false and `getThrust()` return
the zero vector, and leaves `isActive()` unchanged. -/
theorem c4_clear_resets_outputs_keeps_active (s : ShipInput) :
    s.clear.didReset = false ∧ s.clear.getThrust = Vec2.zero ∧
      s.clear.isActive = s.isActive :=
  ⟨rfl, rfl, rfl⟩

/-- C5: calling `update(dt)` after `dispose()` leaves the state unchanged
(a no-op on the disposed state). -/
theorem c5_update_after_dispose_noop (s : ShipInput) (cfg : InputConfig)
    (keys : Keys) (dt : ℚ) :
    (s.dispose).update cfg keys dt = s.dispose := rfl

/-- C6: calling `init()` on an already-active controller is guarded by the
active flag: the state is unchanged and the error is signalled by the
false return value. -/
theorem c6_init_guarded_when_active (s : ShipInput) (registered : Bool)
    (h : s.isActive = true) :
    s.init registered = (false, s) := by
  simp only [ShipInput.isActive] at h
  simp [ShipInput.init, h]

/-- Witness for C6 at a controller made active by a successful `init()`. -/
theorem c6_witness :
    (ShipInput.initial.init true).2.isActive = true ∧
      (ShipInput.initial.init true).2.init false =
        (false, (ShipInput.initial.init true).2) :=
  ⟨rfl, c6_init_guarded_when_active (ShipInput.initial.init true).2 false rfl⟩

/-- C7: `dispose()` clears all cached state and sets the controller
inactive (the result is exactly the freshly constructed state), and a
second consecutive call leaves the state identical to after the first. -/
theorem c7_dispose_clears_and_idempotent (s : ShipInput) :
    s.dispose = ShipInput.initial ∧ s.dispose.isActive = false ∧
      s.dispose.dispose = s.dispose :=
  ⟨rfl, rfl, rfl⟩

/-- C10: the destructor always invokes `dispose()`, so destruction has
exactly the effect of `dispose()` and leaves the controller inactive. -/
theorem c10_destructor_disposes (s : ShipInput) :
    s.destructor = s.dispose ∧ s.destructor.isActive = false :=
  ⟨rfl, rfl⟩

/-- C2: on an active controller, `touchBeganCB` at `P` followed by
`touchEndedCB` at `Q` contributes, through the next `update`, a thrust
term proportional to `Q - P`; in particular when `Q = P` the gesture
contributes zero thrust. -/
theorem c2_touch_gesture_contributes_delta (s : ShipInput) (cfg : InputConfig)
    (keys : Keys) (dt : ℚ) (P Q : Vec2) (T : ℚ) (hact : s.isActive = true) :
    ((((s.touchBeganCB P T).touchEndedCB cfg Q).update cfg keys dt).getThrust
        = (s.update cfg keys dt).getThrust + Vec2.smul cfg.touchFactor (Q - P))
    ∧ (Q = P →
        (((s.touchBeganCB P T).touchEndedCB cfg Q).update cfg keys dt).getThrust
          = (s.update cfg keys dt).getThrust) := by
  simp only [ShipInput.isActive] at hact
  constructor
  · simp [ShipInput.touchBeganCB, ShipInput.touchEndedCB, ShipInput.update,
      ShipInput.getThrust, hact, Vec2.add_def, Vec2.sub_def, Vec2.smul]
    constructor <;> ring
  · intro hQP
    subst hQP
    simp [ShipInput.touchBeganCB, ShipInput.touchEndedCB, ShipInput.update,
      ShipInput.getThrust, hact, Vec2.add_def, Vec2.sub_def, Vec2.smul]

/-- Witness for C2: an active controller, a gesture from (1,2) to (4,6)
with touch factor 2, polled with no keys down. -/
theorem c2_witness :
    (ShipInput.initial.init true).2.isActive = true ∧
      ((((ShipInput.initial.init true).2.touchBeganCB ⟨1, 2⟩ 0).touchEndedCB
            ⟨1, 1, 1, 1, 2⟩ ⟨4, 6⟩).update ⟨1, 1, 1, 1, 2⟩
            ⟨false, false, false, false, false⟩ 0).getThrust
        = ((ShipInput.initial.init true).2.update ⟨1, 1, 1, 1, 2⟩
            ⟨false, false, false, false, false⟩ 0).getThrust
            + Vec2.smul (2 : ℚ) ((⟨4, 6⟩ : Vec2) - ⟨1, 2⟩) :=
  ⟨rfl, (c2_touch_gesture_contributes_delta (ShipInput.initial.init true).2
      ⟨1, 1, 1, 1, 2⟩ ⟨false, false, false, false, false⟩ 0 ⟨1, 2⟩ ⟨4, 6⟩ 0 rfl).1⟩

/-- C8: on an active controller, `update` with the reset key down latches
the reset flag, so `didReset()` returns true after that call and after any
further `update`. -/
theorem c8_update_latches_reset (s : ShipInput) (cfg : InputConfig)
    (keys : Keys) (dt : ℚ) (hact : s.isActive = true) (hkey : keys.reset = true) :
    (s.update cfg keys dt).didReset = true ∧
      ∀ (keys2 : Keys) (dt2 : ℚ),
        ((s.update cfg keys dt).update cfg keys2 dt2).didReset = true := by
  simp only [ShipInput.isActive] at hact
  constructor
  · simp [ShipInput.update, hact, hkey, ShipInput.didReset]
  · intro keys2 dt2
    simp [ShipInput.update, hact, hkey, ShipInput.didReset]

/-- Witness for C8: an active controller polled with only the reset key
down reports `didReset()` true. -/
theorem c8_witness :
    ((ShipInput.initial.init true).2.isActive = true ∧
        (Keys.mk false false false false true).reset = true) ∧
      ((ShipInput.initial.init true).2.update ⟨1, 1, 1, 1, 1⟩
          ⟨false, false, false, false, true⟩ 0).didReset = true :=
  ⟨⟨rfl, rfl⟩, (c8_update_latches_reset (ShipInput.initial.init true).2 ⟨1, 1, 1, 1, 1⟩
      ⟨false, false, false, false, true⟩ 0 rfl rfl).1⟩

/-- C3: on an active controller, each component of the keyboard-thrust
vector computed by `update` is monotonically related to the corresponding
directional force magnitudes (nondecreasing in the positive direction,
nonincreasing in the opposing one), and when the left and right keys are
down simultaneously with equal magnitudes the net horizontal thrust is
zero. -/
theorem c3_keyboard_thrust_monotone (s : ShipInput) (cfg cfg2 : InputConfig)
    (keys : Keys) (dt : ℚ) (hact : s.isActive = true) :
    (keys.left = true → keys.right = true → cfg.fLeft = cfg.fRight →
        (s.update cfg keys dt).keybdThrust.x = 0)
      ∧ (cfg.fLeft = cfg2.fLeft → cfg.fRight ≤ cfg2.fRight →
          (s.update cfg keys dt).keybdThrust.x ≤ (s.update cfg2 keys dt).keybdThrust.x)
      ∧ (cfg.fRight = cfg2.fRight → cfg2.fLeft ≤ cfg.fLeft →
          (s.update cfg keys dt).keybdThrust.x ≤ (s.update cfg2 keys dt).keybdThrust.x)
      ∧ (cfg.fDown = cfg2.fDown → cfg.fUp ≤ cfg2.fUp →
          (s.update cfg keys dt).keybdThrust.y ≤ (s.update cfg2 keys dt).keybdThrust.y)
      ∧ (cfg.fUp = cfg2.fUp → cfg2.fDown ≤ cfg.fDown →
          (s.update cfg keys dt).keybdThrust.y ≤ (s.update cfg2 keys dt).keybdThrust.y) := by
  simp only [ShipInput.isActive] at hact
  refine ⟨?_, ?_, ?_, ?_, ?_⟩
  · intro hl hr he
    simp [ShipInput.update, hact, hl, hr, he]
  · intro he hle
    cases hr : keys.right <;> cases hl : keys.left <;>
      simp [ShipInput.update, hact, hr, hl, he] <;> linarith
  · intro he hle
    cases hr : keys.right <;> cases hl : keys.left <;>
      simp [ShipInput.update, hact, hr, hl, he] <;> linarith
  · intro he hle
    cases hu : keys.up <;> cases hd : keys.down <;>
      simp [ShipInput.update, hact, hu, hd, he] <;> linarith
  · intro he hle
    cases hu : keys.up <;> cases hd : keys.down <;>
      simp [ShipInput.update, hact, hu, hd, he] <;> linarith

/-- Witness for C3: with left and right both down and equal magnitudes 2,
the horizontal keyboard thrust is zero. -/
theorem c3_witness :
    (ShipInput.initial.init true).2.isActive = true ∧
      ((ShipInput.initial.init true).2.update ⟨2, 2, 3, 4, 5⟩
          ⟨true, true, false, false, false⟩ 0).keybdThrust.x = 0 :=
  ⟨rfl, (c3_keyboard_thrust_monotone (ShipInput.initial.init true).2 ⟨2, 2, 3, 4, 5⟩
      ⟨2, 2, 3, 4, 5⟩ ⟨true, true, false, false, false⟩ 0 rfl).1 rfl rfl rfl⟩

/-- A directional difference of gated force magnitudes stays between the
negated opposing magnitude and the positive one. -/
theorem force_sub_bounds (a b : ℚ) (p q : Bool) (ha : 0 ≤ a) (hb : 0 ≤ b) :
    -a ≤ (if q then b else 0) - (if p then a else 0) ∧
      (if q then b else 0) - (if p then a else 0) ≤ b := by
  cases p <;> cases q <;> constructor <;> simp <;> linarith

/-- A state whose keyboard thrust is the zero vector satisfies the bound
for any nonnegative configuration. -/
theorem kbBounded_of_zero_thrust (cfg : InputConfig) (s : ShipInput)
    (hL : 0 ≤ cfg.fLeft) (hR : 0 ≤ cfg.fRight) (hU : 0 ≤ cfg.fUp)
    (hD : 0 ≤ cfg.fDown) (h : s.keybdThrust = Vec2.zero) : KbBounded cfg s := by
  simp only [KbBounded, h, Vec2.zero]
  refine ⟨by linarith, by linarith, by linarith, by linarith⟩

/-- Every operation preserves the keyboard-thrust bound. -/
theorem kbBounded_applyOp (cfg : InputConfig)
    (hL : 0 ≤ cfg.fLeft) (hR : 0 ≤ cfg.fRight) (hU : 0 ≤ cfg.fUp)
    (hD : 0 ≤ cfg.fDown) (s : ShipInput) (hs : KbBounded cfg s) (op : Op) :
    KbBounded cfg (applyOp cfg s op) := by
  cases op with
  | opInit r =>
      cases hA : s.active
      · cases r
        · simpa [applyOp, ShipInput.init, hA, KbBounded] using hs
        · apply kbBounded_of_zero_thrust cfg _ hL hR hU hD
          simp [applyOp, ShipInput.init, hA, ShipInput.initial]
      · simpa [applyOp, ShipInput.init, hA, KbBounded] using hs
  | opDispose =>
      exact kbBounded_of_zero_thrust cfg _ hL hR hU hD rfl
  | opUpdate keys dt =>
      cases hA : s.active
      · simpa [applyOp, ShipInput.update, hA, KbBounded] using hs
      · have hx := force_sub_bounds cfg.fLeft cfg.fRight keys.left keys.right hL hR
        have hy := force_sub_bounds cfg.fDown cfg.fUp keys.down keys.up hD hU
        simp only [applyOp, ShipInput.update, hA, if_true, KbBounded]
        exact ⟨hx.1, hx.2.trans (le_refl _), hy.1, hy.2⟩
  | opClear =>
      simpa [applyOp, ShipInput.clear, KbBounded] using hs
  | opTouchBegan pos tm =>
      cases hA : s.active <;>
        simpa [applyOp, ShipInput.touchBeganCB, hA, KbBounded] using hs
  | opTouchEnded pos =>
      cases hA : s.active <;>
        simpa [applyOp, ShipInput.touchEndedCB, hA, KbBounded] using hs

/-- Folding any operation sequence preserves the keyboard-thrust bound. -/
theorem kbBounded_foldl (cfg : InputConfig)
    (hL : 0 ≤ cfg.fLeft) (hR : 0 ≤ cfg.fRight) (hU : 0 ≤ cfg.fUp)
    (hD : 0 ≤ cfg.fDown) (ops : List Op) :
    ∀ (s : ShipInput), KbBounded cfg s →
      KbBounded cfg (List.foldl (applyOp cfg) s ops) := by
  induction ops with
  | nil => intro s hs; simpa using hs
  | cons op rest ih =>
      intro s hs
      simp only [List.foldl_cons]
      exact ih _ (kbBounded_applyOp cfg hL hR hU hD s hs op)

/-- C9 counterexample: with every configured force magnitude equal to 1
and touch factor 1, the state reached by init, a touch gesture from (0,0)
to (20,0) and one update has input-thrust x-component 20, which is not
bounded by the configured magnitude 1. -/
theorem c9_counterexample :
    ((run ⟨1, 1, 1, 1, 1⟩
        [Op.opInit true, Op.opTouchBegan ⟨0, 0⟩ 0, Op.opTouchEnded ⟨20, 0⟩,
          Op.opUpdate ⟨false, false, false, false, false⟩ 0]).getThrust.x = 20)
      ∧ ¬((run ⟨1, 1, 1, 1, 1⟩
        [Op.opInit true, Op.opTouchBegan ⟨0, 0⟩ 0, Op.opTouchEnded ⟨20, 0⟩,
          Op.opUpdate ⟨false, false, false, false, false⟩ 0]).getThrust.x ≤ 1) := by
  constructor <;>
    simp [run, applyOp, ShipInput.init, ShipInput.initial, ShipInput.touchBeganCB,
      ShipInput.touchEndedCB, ShipInput.update, ShipInput.getThrust, Vec2.smul,
      Vec2.add_def, Vec2.sub_def, Vec2.zero]

/-- C9 amended: in every reachable state, with nonnegative configured
force magnitudes, each component of the keyboard-thrust vector is bounded
by the corresponding configured force magnitudes; the combined input
thrust is not so bounded because touch-gesture deltas fold in unclamped. -/
theorem c9_amended_keyboard_thrust_bounded (cfg : InputConfig) (ops : List Op)
    (hL : 0 ≤ cfg.fLeft) (hR : 0 ≤ cfg.fRight) (hU : 0 ≤ cfg.fUp)
    (hD : 0 ≤ cfg.fDown) : KbBounded cfg (run cfg ops) :=
  kbBounded_foldl cfg hL hR hU hD ops ShipInput.initial
    (kbBounded_of_zero_thrust cfg ShipInput.initial hL hR hU hD rfl)

/-- Witness for the amended C9 at the unit configuration and the empty
operation sequence. -/
theorem c9_witness :
    (0 : ℚ) ≤ 1 ∧ KbBounded ⟨1, 1, 1, 1, 1⟩ (run ⟨1, 1, 1, 1, 1⟩ []) :=
  ⟨by norm_num, c9_amended_keyboard_thrust_bounded ⟨1, 1, 1, 1, 1⟩ []
    (by norm_num) (by norm_num) (by norm_num) (by norm_num)⟩

end ShipDemo
